import Mathlib

/-! DBInteractive: the interactive SQL terminal of `flex-os-db-terminal.go`.

A shallow embedding of the terminal's read-eval-print loop, of `ExecuteQuery`
and of the start-up code of `main`, followed by theorems about them.

Modelling conventions.

* A Go `string` is a Lean `String` (a sequence of Unicode code points); `len`
  is the UTF-8 byte length, as in Go.
* Standard output is the list of the texts written by the successive calls of
  `fmt.Print`, `fmt.Println` and `fmt.Printf`; a `Println` text ends in a line
  feed.
* A Go `error` is its message; `sql.ErrNoRows` is kept apart because the code
  compares against it.
* The SQL engine is outside the repository.  The working database is a state
  `D` with a transition function supplied by a `Driver`; the bookmark database
  is the table `starList` with its `sqlite_sequence` entry, on which the four
  fixed statements the program issues are interpreted.
-/

namespace FlexDB

/-! ## Library functions used by the program -/

/-- Go `unicode.IsSpace`: the Latin-1 spaces and the code points with the
Unicode property White_Space. -/
def isSpace (c : Char) : Bool :=
  let r := c.toNat
  r == 0x09 || r == 0x0A || r == 0x0B || r == 0x0C || r == 0x0D || r == 0x20 ||
  r == 0x85 || r == 0xA0 || r == 0x1680 || (0x2000 ≤ r && r ≤ 0x200A) ||
  r == 0x2028 || r == 0x2029 || r == 0x202F || r == 0x205F || r == 0x3000

/-- Go `strings.TrimSpace`: drops the leading and the trailing white space. -/
def TrimSpace (s : String) : String :=
  ⟨((s.data.dropWhile isSpace).reverse.dropWhile isSpace).reverse⟩

/-- Go `strings.HasSuffix`. -/
def HasSuffix (s suffix : String) : Bool :=
  suffix.data.isSuffixOf s.data

/-- Go `unicode.ToLower` as far as comparisons with ASCII words can observe it:
the ASCII capitals, and the two other code points whose lower case is an ASCII
letter (U+0130 gives `i`, U+212A gives `k`).  The lower case of every other
code point is outside ASCII and is left as the code point itself. -/
def toLowerRune (c : Char) : Char :=
  if 'A' ≤ c ∧ c ≤ 'Z' then Char.ofNat (c.toNat + 32)
  else if c.toNat = 0x130 then 'i'
  else if c.toNat = 0x212A then 'k'
  else c

/-- Go `strings.ToLower`. -/
def ToLower (s : String) : String :=
  ⟨s.data.map toLowerRune⟩

/-- The value of a run of decimal digits. -/
def digitsValue (ds : List Char) : Nat :=
  ds.foldl (fun n ch => n * 10 + (ch.toNat - 48)) 0

/-- Go `strconv.Atoi` on a 64-bit platform: an optional sign followed by one or
more ASCII digits, whose value fits `int`; `none` stands for a returned error. -/
def Atoi (s : String) : Option Int :=
  match s.data with
  | [] => none
  | c :: rest =>
    let neg := c == '-'
    let ds := if c == '-' || c == '+' then rest else c :: rest
    if ds.isEmpty || !ds.all Char.isDigit then none
    else
      let n := digitsValue ds
      if neg then (if n ≤ 2 ^ 63 then some (-(n : Int)) else none)
      else (if n < 2 ^ 63 then some (n : Int) else none)

/-- Go `strings.Join`. -/
def Join : List String → String → String
  | [], _ => ""
  | [a], _ => a
  | a :: b :: rest, sep => a ++ sep ++ Join (b :: rest) sep

/-- Go `strings.Repeat`. -/
def Repeat (s : String) (count : Nat) : String :=
  String.join (List.replicate count s)

/-- Go `len` of a string: its number of bytes in UTF-8. -/
def len (s : String) : Nat :=
  s.utf8ByteSize

/-! ## The session -/

/-- A row of the table `starList`. -/
structure Bookmark where
  id : Int
  content : String
deriving DecidableEq, Repr

/-- What `rows.Scan` or `QueryRow(...).Scan` can fail with. -/
inductive ScanError where
  | ErrNoRows
  | other (msg : String)
deriving DecidableEq, Repr

/-- The answer of the working database to `t.db.Query`: a failure of the query,
a failure of `rows.Columns`, or the column names with, for each row that
`rows.Next` delivers, the outcome of `rows.Scan` (a `none` field is SQL NULL). -/
inductive QueryResult (V : Type) where
  | queryError (err : String)
  | columnsError (err : String)
  | rows (columns : List String) (scans : List (Except String (List (Option V))))

/-- The working database: `connect` is the database found at a path, sending a
statement changes its state and yields a result, and `format` is
`fmt.Sprintf("%v", val)` on the driver's values. -/
structure Driver (D V : Type) where
  connect : String → D
  query : D → String → D × QueryResult V
  format : V → String

/-- The calls the theorems keep track of. -/
inductive Call where
  | ExecuteQuery (sqlString : String)
  | Query (sqlString : String)
  | writeLastSQL (sql : String)
deriving DecidableEq, Repr

/-- Everything the loop of `main` reads and writes. -/
structure State (D : Type) where
  /-- The accumulation buffer `sqlBuffer`. -/
  sqlBuffer : String
  /-- The working database behind `terminal.db`. -/
  terminal : D
  /-- The rows of `starList` in the bookmark database. -/
  starList : List Bookmark
  /-- The entry of `starList` in `sqlite_sequence`, when there is one. -/
  sqliteSequence : Option Int
  /-- When set, every statement on the bookmark database fails with this error. -/
  starDBError : Option String
  /-- What `os.ReadFile` gives for `./DBTerminal/lastSql.txt`. -/
  lastSqlFile : Except String String
  /-- When set, `os.WriteFile` on `./DBTerminal/lastSql.txt` fails with this error. -/
  lastSqlWriteError : Option String
  /-- Standard output, one entry for each print call. -/
  stdout : List String
  /-- The calls made so far. -/
  calls : List Call

variable {D V : Type}

/-- Writes a text to standard output (`fmt.Print`). -/
def Print (st : State D) (text : String) : State D :=
  { st with stdout := st.stdout ++ [text] }

/-- Writes a line to standard output (`fmt.Println`). -/
def Println (st : State D) (text : String) : State D :=
  Print st (text ++ "\n")

/-- One field of a result row as `ExecuteQuery` renders it. -/
def renderField (E : Driver D V) : Option V → String
  | none => "NULL"
  | some val => E.format val

/-- The loop `for rows.Next()` of `ExecuteQuery`. -/
def printRows (E : Driver D V) (st : State D) :
    List (Except String (List (Option V))) → State D × Option String
  | [] => (st, none)
  | Except.error err :: _ => (st, some err)
  | Except.ok values :: rest =>
    printRows E (Println st (Join (values.map (renderField E)) " | ")) rest

/-- The method `FlexDBTerminal.ExecuteQuery`; the second component is the
returned error. -/
def ExecuteQuery (E : Driver D V) (st : State D) (sqlString : String) :
    State D × Option String :=
  let st := { st with calls := st.calls ++ [Call.ExecuteQuery sqlString] }
  let sqlString := TrimSpace sqlString
  let answer := E.query st.terminal sqlString
  let st := { st with terminal := answer.1, calls := st.calls ++ [Call.Query sqlString] }
  match answer.2 with
  | QueryResult.queryError err => (st, some err)
  | QueryResult.columnsError err => (st, some err)
  | QueryResult.rows columns scans =>
    if columns.length = 0 then (st, none)
    else
      let st := Println st (Join columns " | ")
      let st := Println st (Repeat "-" (len (Join columns " | ")))
      printRows E st scans

/-- The function `readLastSQL`. -/
def readLastSQL (st : State D) : Except String String :=
  st.lastSqlFile

/-- The function `writeLastSQL`; the second component is the returned error. -/
def writeLastSQL (st : State D) (sql : String) : State D × Option String :=
  let st := { st with calls := st.calls ++ [Call.writeLastSQL sql] }
  match st.lastSqlWriteError with
  | some err => (st, some err)
  | none => ({ st with lastSqlFile := Except.ok sql }, none)

/-- The rows of `starList` in ascending order of id. -/
def orderById (rows : List Bookmark) : List Bookmark :=
  rows.insertionSort (fun a b => a.id ≤ b.id)

/-- The statement `SELECT id, content FROM starList ORDER BY id`. -/
def selectAll (st : State D) : Except String (List Bookmark) :=
  match st.starDBError with
  | some err => Except.error err
  | none => Except.ok (orderById st.starList)

/-- The statement `SELECT content FROM starList WHERE id = ?` with the `Scan`
of its single row. -/
def selectContent (st : State D) (id : Int) : Except ScanError String :=
  match st.starDBError with
  | some err => Except.error (ScanError.other err)
  | none =>
    match st.starList.find? (fun b => b.id == id) with
    | some b => Except.ok b.content
    | none => Except.error ScanError.ErrNoRows

/-- The id an AUTOINCREMENT insert assigns: one more than the largest id ever
used, which is the larger of the `sqlite_sequence` entry and the ids present. -/
def nextId (st : State D) : Int :=
  (st.starList.map Bookmark.id).foldl max (st.sqliteSequence.getD 0) + 1

/-- The statement `INSERT INTO starList (content) VALUES (?)`. -/
def insertStar (st : State D) (content : String) : State D × Option String :=
  match st.starDBError with
  | some err => (st, some err)
  | none =>
    ({ st with starList := st.starList ++ [⟨nextId st, content⟩],
               sqliteSequence := some (nextId st) }, none)

/-- The statement `DELETE FROM starList WHERE content = ?`. -/
def deleteStar (st : State D) (content : String) : State D × Option String :=
  match st.starDBError with
  | some err => (st, some err)
  | none => ({ st with starList := st.starList.filter (fun b => b.content != content) }, none)

/-- Numbers the rows from `start` on, in the order given. -/
def renumber : Int → List Bookmark → List Bookmark
  | _, [] => []
  | start, b :: rest => ⟨start, b.content⟩ :: renumber (start + 1) rest

/-- The statements of `zip`: every id becomes the row's rank in id order, and
the entry of `starList` in `sqlite_sequence` is deleted. -/
def zipStars (st : State D) : State D × Option String :=
  match st.starDBError with
  | some err => (st, some err)
  | none =>
    ({ st with starList := renumber 1 (orderById st.starList), sqliteSequence := none }, none)

/-- How an iteration of the loop ends: `stop` for `break`, `next` for reaching
the end of the body or `continue`. -/
inductive Outcome (σ : Type) where
  | stop (st : σ)
  | next (st : σ)

/-- The state an iteration ends with. -/
def Outcome.state {σ : Type} : Outcome σ → σ
  | Outcome.stop st => st
  | Outcome.next st => st

/-- The branch `ls` of the loop (source lines 175 to 197). -/
def ls (st : State D) : State D :=
  match selectAll st with
  | Except.error err => Println st ("Error: " ++ err)
  | Except.ok rows =>
    let st := rows.foldl
      (fun st b => Print st (toString b.id ++ ". " ++ b.content ++ "\n")) st
    if rows.isEmpty then Println st "no data" else st

/-- The branch `unstar` of the loop (source lines 199 to 212). -/
def unstar (st : State D) : State D :=
  match readLastSQL st with
  | Except.error err => Println st ("Error reading last SQL: " ++ err)
  | Except.ok lastSQL =>
    match deleteStar st lastSQL with
    | (st, some err) => Println st ("Error: " ++ err)
    | (st, none) => Println st "success"

/-- The branch `star` of the loop (source lines 214 to 227). -/
def star (st : State D) : State D :=
  match readLastSQL st with
  | Except.error err => Println st ("Error reading last SQL: " ++ err)
  | Except.ok lastSQL =>
    match insertStar st lastSQL with
    | (st, some err) => Println st ("Error: " ++ err)
    | (st, none) => Println st "starred"

/-- The branch `zip` of the loop (source lines 229 to 250). -/
def zip (st : State D) : State D :=
  match zipStars st with
  | (st, some err) => Println st ("Error: " ++ err)
  | (st, none) => Println st "zipped"

/-- The terminator check that closes the loop body (source lines 269 to 280). -/
def executeIfTerminated (E : Driver D V) (st : State D) : State D :=
  if HasSuffix (TrimSpace st.sqlBuffer) ";" then
    let run := ExecuteQuery E st (TrimSpace st.sqlBuffer)
    let st1 :=
      match run.2 with
      | some err => Println run.1 ("Execute error: " ++ err)
      | none => run.1
    let saved := writeLastSQL st1 (TrimSpace st.sqlBuffer)
    let st2 :=
      match saved.2 with
      | some err => Println saved.1 ("Error saving last SQL: " ++ err)
      | none => saved.1
    { st2 with sqlBuffer := "" }
  else st

/-- The body of the loop of `main` for a line that `scanner.Scan` has read
(source lines 170 to 280). -/
def mainIteration (E : Driver D V) (line : String) (st : State D) : Outcome (State D) :=
  if ToLower line = "exit" then Outcome.stop st
  else if ToLower line = "ls" then Outcome.next (ls st)
  else if ToLower line = "unstar" then Outcome.next (unstar st)
  else if ToLower line = "star" then Outcome.next (star st)
  else if ToLower line = "zip" then Outcome.next (zip st)
  else
    match Atoi (TrimSpace line) with
    | some id =>
      match selectContent st id with
      | Except.error ScanError.ErrNoRows => Outcome.next (Println st "no such index.")
      | Except.error (ScanError.other err) => Outcome.next (Println st ("Error: " ++ err))
      | Except.ok content =>
        Outcome.next (executeIfTerminated E
          { Print st ("SQL> " ++ content ++ "\n") with sqlBuffer := content })
    | none =>
      Outcome.next (executeIfTerminated E
        { st with sqlBuffer := st.sqlBuffer ++ (line ++ " ") })

/-- The loop of `main` over the lines that standard input still holds (source
lines 164 to 281): the prompt is printed, then a line is read, and the loop
ends at `exit` or when the input is exhausted. -/
def mainLoop (E : Driver D V) : List String → State D → State D
  | [], st => Print st "SQL> "
  | line :: rest, st =>
    match mainIteration E line (Print st "SQL> ") with
    | Outcome.stop st => st
    | Outcome.next st => mainLoop E rest st

/-! ## Start-up -/

/-- The flags defined so far, each with its current value (package `flag`). -/
abbrev FlagSet := List (String × String)

/-- Go `flag.String`: defines a flag with a default value; the returned pointer
is the flag's name. -/
def flagString (fs : FlagSet) (name value : String) : FlagSet :=
  fs ++ [(name, value)]

/-- Reading a flag through its pointer. -/
def flagValue (fs : FlagSet) (name : String) : String :=
  (fs.lookup name).getD ""

/-- Go `flag.Parse` on a command line given as pairs of flag name and value:
every flag must have been defined, else the program exits with status 2. -/
def flagParse (fs : FlagSet) : List (String × String) → Option FlagSet
  | [] => some fs
  | (name, value) :: rest =>
    if fs.any (fun f => f.1 == name) then
      flagParse (fs.map (fun f => if f.1 == name then (f.1, value) else f)) rest
    else none

/-- What `main` finds when the program starts. -/
structure Env where
  /-- The command line, as pairs of flag name and value. -/
  args : List (String × String)
  /-- What `os.ReadFile` gives for `./DBTerminal/defaultPath.txt`. -/
  defaultPathFile : Except String String
  /-- The lines on standard input. -/
  stdin : List String
  /-- The rows of `starList` in the bookmark database. -/
  starList : List Bookmark
  /-- The entry of `starList` in `sqlite_sequence`. -/
  sqliteSequence : Option Int
  /-- When set, every statement on the bookmark database fails with this error. -/
  starDBError : Option String
  /-- What `os.ReadFile` gives for `./DBTerminal/lastSql.txt`. -/
  lastSqlFile : Except String String
  /-- When set, writing `./DBTerminal/lastSql.txt` fails with this error. -/
  lastSqlWriteError : Option String

/-- The calls of the start-up code that the theorems keep track of. -/
inductive StartCall where
  | readDefaultPath
  | Scan
  | writeDefaultPath (path : String)
  | NewFlexDBTerminal (dbPath : String)
deriving DecidableEq, Repr

/-- How the start-up code ends: the process exits, or the loop can start with
the working database opened at `dbPath`. -/
inductive Startup where
  | exit (status : Nat) (calls : List StartCall) (stdout : List String)
  | ready (dbPath starDbPath : String) (calls : List StartCall) (stdout : List String)
      (stdin : List String)
deriving DecidableEq, Repr

/-- The code of `main` before the loop (source lines 119 to 160).  `sql.Open`
does not touch the file and does not fail for a registered driver, so
`NewFlexDBTerminal` is recorded as a call that succeeds. -/
def startup (env : Env) : Startup :=
  let fs := flagString [] "db" ""
  let dbPath := flagValue fs "db"
  match flagParse fs env.args with
  | none => Startup.exit 2 [] []
  | some fs =>
    let chosen : Except (List StartCall × List String)
        (String × List StartCall × List String × List String) :=
      if dbPath = "" then
        match env.defaultPathFile with
        | Except.ok path => Except.ok (path, [StartCall.readDefaultPath], [], env.stdin)
        | Except.error _ =>
          match env.stdin with
          | [] =>
            Except.error ([StartCall.readDefaultPath, StartCall.Scan], ["enter sql path: "])
          | answer :: rest =>
            Except.ok (answer,
              [StartCall.readDefaultPath, StartCall.Scan, StartCall.writeDefaultPath answer],
              ["enter sql path: "], rest)
      else Except.ok (dbPath, [], [], env.stdin)
    match chosen with
    | Except.error (calls, out) => Startup.exit 1 calls out
    | Except.ok (dbPath, calls, out, stdin) =>
      let calls := calls ++ [StartCall.NewFlexDBTerminal dbPath]
      let fs := flagString fs "stardb" "./DBTerminal/dbterminal.db"
      match flagParse fs env.args with
      | none => Startup.exit 2 calls out
      | some fs =>
        let starDbPath := flagValue fs "stardb"
        let calls := calls ++ [StartCall.NewFlexDBTerminal starDbPath]
        match env.starDBError with
        | some _ => Startup.exit 1 calls out
        | none =>
          Startup.ready dbPath starDbPath calls
            (out ++ ["Connect to database: " ++ dbPath ++ "\n",
              "In interactive mode now (Type \x27exit\x27 to leave)\n"]) stdin

/-- The program: the start-up code, then the loop on the remaining input. -/
def main (E : Driver D V) (env : Env) : Option (State D) :=
  match startup env with
  | Startup.exit _ _ _ => none
  | Startup.ready dbPath _ _ out stdin =>
    some (mainLoop E stdin
      { sqlBuffer := "", terminal := E.connect dbPath, starList := env.starList,
        sqliteSequence := env.sqliteSequence, starDBError := env.starDBError,
        lastSqlFile := env.lastSqlFile, lastSqlWriteError := env.lastSqlWriteError,
        stdout := out, calls := [] })

/-! ## Definitions used to state the theorems -/

/-- The last character of a text that is not white space. -/
def lastVisible (l : List Char) : Option Char :=
  l.reverse.find? (fun c => !isSpace c)

/-- The five words the loop compares the lower-cased line with. -/
def keywords : List String := ["exit", "ls", "unstar", "star", "zip"]

/-- Each line followed by one space, in input order. -/
def accumulated : List String → String
  | [] => ""
  | line :: rest => line ++ " " ++ accumulated rest

/-- The states in which the iterations of `mainLoop` begin and end. -/
def boundaries (E : Driver D V) : List String → State D → List (State D)
  | [], st => [st]
  | line :: rest, st =>
    st :: (match mainIteration E line (Print st "SQL> ") with
      | Outcome.stop st => [st]
      | Outcome.next st => boundaries E rest st)

/-- The loop body as the specification words it: the terminator check follows
every command other than `exit`, the meta-commands and a failed lookup
included. -/
def checkedIteration (E : Driver D V) (line : String) (st : State D) : Outcome (State D) :=
  if ToLower line = "exit" then Outcome.stop st
  else if ToLower line = "ls" then Outcome.next (executeIfTerminated E (ls st))
  else if ToLower line = "unstar" then Outcome.next (executeIfTerminated E (unstar st))
  else if ToLower line = "star" then Outcome.next (executeIfTerminated E (star st))
  else if ToLower line = "zip" then Outcome.next (executeIfTerminated E (zip st))
  else
    match Atoi (TrimSpace line) with
    | some id =>
      match selectContent st id with
      | Except.error ScanError.ErrNoRows =>
        Outcome.next (executeIfTerminated E (Println st "no such index."))
      | Except.error (ScanError.other err) =>
        Outcome.next (executeIfTerminated E (Println st ("Error: " ++ err)))
      | Except.ok content =>
        Outcome.next (executeIfTerminated E
          { Print st ("SQL> " ++ content ++ "\n") with sqlBuffer := content })
    | none =>
      Outcome.next (executeIfTerminated E
        { st with sqlBuffer := st.sqlBuffer ++ (line ++ " ") })

/-- The loop built on `checkedIteration`. -/
def checkedLoop (E : Driver D V) : List String → State D → State D
  | [], st => Print st "SQL> "
  | line :: rest, st =>
    match checkedIteration E line (Print st "SQL> ") with
    | Outcome.stop st => st
    | Outcome.next st => checkedLoop E rest st

/-- A working database for the examples: it answers three statements and
rejects every other one. -/
def sampleDriver : Driver Unit Int where
  connect := fun _ => ()
  query := fun d sqlString =>
    (d,
      if sqlString = "SELECT 1;" then
        QueryResult.rows ["1"] [Except.ok [some 1]]
      else if sqlString = "SELECT 1 AS é;" then
        QueryResult.rows ["é"] [Except.ok [some 1]]
      else if sqlString = "SELECT NULL, 2;" then
        QueryResult.rows ["NULL", "2"] [Except.ok [none, some 2]]
      else QueryResult.queryError "SQL logic error")
  format := fun val => toString val

/-- A session for the examples: empty buffer, no bookmark, no statement
executed yet, and files that can be written. -/
def freshState : State Unit where
  sqlBuffer := ""
  terminal := ()
  starList := []
  sqliteSequence := none
  starDBError := none
  lastSqlFile := Except.error "open ./DBTerminal/lastSql.txt: no such file or directory"
  lastSqlWriteError := none
  stdout := []
  calls := []

/-- A session for the examples with two bookmarks and the text `select`
pending in the buffer. -/
def bookmarkedState : State Unit :=
  { freshState with
    sqlBuffer := "select "
    starList := [⟨1, "select 2"⟩, ⟨2, "SELECT 1;"⟩]
    sqliteSequence := some 2 }

/-- A result row as `ExecuteQuery` prints it. -/
def renderRow (E : Driver D V) (values : List (Option V)) : String :=
  Join (values.map (renderField E)) " | " ++ "\n"

/-- A bookmark as `ls` prints it. -/
def renderBookmark (b : Bookmark) : String :=
  toString b.id ++ ". " ++ b.content ++ "\n"

/-- A start of the program for the examples: the flag `-db` names one
database and the file of the default path another. -/
def sampleEnv : Env where
  args := [("db", "/data/work.db")]
  defaultPathFile := Except.ok "/data/old.db"
  stdin := ["SELECT 1;", "exit"]
  starList := []
  sqliteSequence := none
  starDBError := none
  lastSqlFile := Except.error "open ./DBTerminal/lastSql.txt: no such file or directory"
  lastSqlWriteError := none

/-! ## Lemmas on the library functions -/


theorem find_reverse_dropWhile (l : List Char) :
    (l.dropWhile isSpace).reverse.find? (fun c => !isSpace c) = lastVisible l := by
  unfold lastVisible
  conv_rhs => rw [← List.takeWhile_append_dropWhile isSpace l]
  rw [List.reverse_append, List.find?_append]
  have h : (List.takeWhile isSpace l).reverse.find? (fun c => !isSpace c) = none := by
    rw [List.find?_eq_none]
    intro x hx
    have := List.mem_takeWhile_imp (List.mem_reverse.mp hx)
    simp [this]
  rw [h]; simp

theorem head_dropWhile_eq_find (l : List Char) :
    (l.dropWhile isSpace).head? = l.find? (fun c => !isSpace c) := by
  induction l with
  | nil => rfl
  | cons a t ih =>
    by_cases h : isSpace a = true
    · simp [List.dropWhile_cons, List.find?_cons, h, ih]
    · simp [List.dropWhile_cons, List.find?_cons, h]

theorem isSuffixOf_singleton (c : Char) (l : List Char) :
    [c].isSuffixOf l = true ↔ l.reverse.head? = some c := by
  rw [List.isSuffixOf_iff_suffix]
  constructor
  · rintro ⟨t, rfl⟩; simp
  · intro h
    cases hr : l.reverse with
    | nil => rw [hr] at h; simp at h
    | cons a t =>
      rw [hr] at h
      simp at h
      subst h
      refine ⟨t.reverse, ?_⟩
      have := congrArg List.reverse hr
      simpa using this.symm

theorem hasSuffix_trim_iff (s : String) :
    HasSuffix (TrimSpace s) ";" = true ↔ lastVisible s.data = some ';' := by
  unfold HasSuffix TrimSpace
  show [';'].isSuffixOf _ = true ↔ _
  rw [isSuffixOf_singleton, List.reverse_reverse, head_dropWhile_eq_find, find_reverse_dropWhile]


theorem isDigit_toNat (c : Char) (h : c.isDigit = true) : 48 ≤ c.toNat ∧ c.toNat ≤ 57 := by
  simp only [Char.isDigit, Bool.and_eq_true, decide_eq_true_eq] at h
  exact ⟨h.1, h.2⟩

theorem signOrDigit_toNat (c : Char) (h : c.isDigit = true ∨ c = '-' ∨ c = '+') :
    c.toNat < 65 := by
  rcases h with h | h | h
  · have := isDigit_toNat c h; omega
  · subst h; decide
  · subst h; decide

theorem toLowerRune_of_lt (c : Char) (h : c.toNat < 65) : toLowerRune c = c := by
  unfold toLowerRune
  have h1 : ¬ ('A' ≤ c ∧ c ≤ 'Z') := by
    rintro ⟨h1, _⟩
    have : 65 ≤ c.toNat := h1
    omega
  rw [if_neg h1, if_neg (by omega), if_neg (by omega)]

theorem atoi_chars (s : String) (n : Int) (h : Atoi s = some n) :
    s.data ≠ [] ∧ ∀ c ∈ s.data, c.isDigit = true ∨ c = '-' ∨ c = '+' := by
  unfold Atoi at h
  cases hs : s.data with
  | nil => rw [hs] at h; simp at h
  | cons c rest =>
    rw [hs] at h
    refine ⟨by simp, ?_⟩
    simp only at h
    by_cases hc : (c == '-' || c == '+') = true
    · rw [if_pos hc] at h
      by_cases hd : (rest.isEmpty || !rest.all Char.isDigit) = true
      · rw [if_pos hd] at h; simp at h
      · simp only [Bool.or_eq_true, not_or, Bool.not_eq_true, Bool.not_eq_false_eq_eq_true,
          Bool.not_eq_true_eq_eq_false, Bool.not_eq_false] at hd
        have hall := hd.2
        simp only [Bool.not_eq_false_eq_eq_true, Bool.not_eq_eq_eq_not, Bool.not_false] at hall
        rw [List.all_eq_true] at hall
        intro x hx
        rcases List.mem_cons.mp hx with rfl | hx
        · simp at hc; tauto
        · exact Or.inl (hall x hx)
    · rw [if_neg hc] at h
      by_cases hd : ((c :: rest).isEmpty || !(c :: rest).all Char.isDigit) = true
      · rw [if_pos hd] at h; simp at h
      · simp only [Bool.or_eq_true, not_or, Bool.not_eq_true, Bool.not_eq_false_eq_eq_true,
          Bool.not_eq_true_eq_eq_false, Bool.not_eq_false] at hd
        have hall := hd.2
        simp only [Bool.not_eq_false_eq_eq_true, Bool.not_eq_eq_eq_not, Bool.not_false] at hall
        rw [List.all_eq_true] at hall
        intro x hx
        exact Or.inl (hall x hx)


theorem trim_data_sublist (s : String) : (TrimSpace s).data.Sublist s.data := by
  unfold TrimSpace
  show (((s.data.dropWhile isSpace).reverse.dropWhile isSpace).reverse).Sublist s.data
  have h1 : ((s.data.dropWhile isSpace).reverse.dropWhile isSpace).Sublist
      (s.data.dropWhile isSpace).reverse := List.dropWhile_sublist _
  have h2 := List.reverse_sublist.mpr h1
  rw [List.reverse_reverse] at h2
  exact h2.trans (List.dropWhile_sublist _)


theorem keyword_chars : ∀ k ∈ keywords, ∀ c ∈ k.data, 65 ≤ c.toNat := by decide

theorem atoi_not_keyword (line : String) (n : Int) (h : Atoi (TrimSpace line) = some n) :
    ToLower line ∉ keywords := by
  intro hk
  obtain ⟨hne, hall⟩ := atoi_chars _ _ h
  obtain ⟨c, hc⟩ := List.exists_mem_of_ne_nil _ hne
  have hlt := signOrDigit_toNat c (hall c hc)
  have hmem : c ∈ line.data := (trim_data_sublist line).subset hc
  have hlow : toLowerRune c ∈ (ToLower line).data := by
    unfold ToLower
    exact List.mem_map_of_mem _ hmem
  rw [toLowerRune_of_lt c hlt] at hlow
  have := keyword_chars _ hk c hlow
  omega

theorem lastVisible_append (a b : List Char) :
    lastVisible (a ++ b) = (lastVisible b).or (lastVisible a) := by
  unfold lastVisible
  rw [List.reverse_append, List.find?_append]

theorem lastVisible_space : lastVisible " ".data = none := by decide

theorem trim_data_eq (l : List Char) (h1 : l.head?.all (fun c => !isSpace c) = true)
    (h2 : l.reverse.head?.all (fun c => !isSpace c) = true) :
    ((l.dropWhile isSpace).reverse.dropWhile isSpace).reverse = l := by
  have e1 : l.dropWhile isSpace = l := by
    cases l with
    | nil => rfl
    | cons a t =>
      simp at h1
      simp [List.dropWhile_cons, h1]
  rw [e1]
  have e2 : l.reverse.dropWhile isSpace = l.reverse := by
    cases hr : l.reverse with
    | nil => rfl
    | cons a t =>
      rw [hr] at h2
      simp at h2
      simp [List.dropWhile_cons, h2]
  rw [e2, List.reverse_reverse]

theorem head_dropWhile_not (l : List Char) :
    (l.dropWhile isSpace).head?.all (fun c => !isSpace c) = true := by
  rw [head_dropWhile_eq_find]
  cases h : l.find? (fun c => !isSpace c) with
  | none => rfl
  | some c => simpa using List.find?_some h

theorem trimSpace_idempotent (s : String) : TrimSpace (TrimSpace s) = TrimSpace s := by
  unfold TrimSpace
  apply congrArg String.mk
  show ((((((s.data.dropWhile isSpace).reverse.dropWhile isSpace).reverse).dropWhile
    isSpace).reverse.dropWhile isSpace).reverse) = _
  apply trim_data_eq
  · set m := s.data.dropWhile isSpace with hm
    have hp : (m.reverse.dropWhile isSpace).reverse <+: m := by
      have := List.dropWhile_suffix (l := m.reverse) isSpace
      have := List.reverse_prefix.mpr this
      rwa [List.reverse_reverse] at this
    obtain ⟨t, ht⟩ := hp
    cases hr : (m.reverse.dropWhile isSpace).reverse with
    | nil => rfl
    | cons a u =>
      rw [hr] at ht
      have hh := head_dropWhile_not s.data
      rw [← hm, ← ht] at hh
      simpa using hh
  · rw [List.reverse_reverse]
    exact head_dropWhile_not _

/-! ### What the branches leave unchanged -/

theorem printRows_frame (E : Driver D V) (scans : List (Except String (List (Option V)))) :
    ∀ st : State D,
      (printRows E st scans).1 = { st with stdout := (printRows E st scans).1.stdout } := by
  induction scans with
  | nil => intro st; rfl
  | cons a rest ih =>
    intro st
    cases a with
    | error err => rfl
    | ok values =>
      simp only [printRows]
      rw [ih]
      rfl

theorem ExecuteQuery_frame (E : Driver D V) (st : State D) (s : String) :
    (ExecuteQuery E st s).1 =
      { st with terminal := (E.query st.terminal (TrimSpace s)).1,
                calls := st.calls ++ [Call.ExecuteQuery s, Call.Query (TrimSpace s)],
                stdout := (ExecuteQuery E st s).1.stdout } := by
  unfold ExecuteQuery
  simp only
  split
  · simp
  · simp
  · split
    · simp
    · rw [printRows_frame]
      simp [Println, Print]

theorem executeIfTerminated_of_not (E : Driver D V) (st : State D)
    (h : HasSuffix (TrimSpace st.sqlBuffer) ";" = false) : executeIfTerminated E st = st := by
  unfold executeIfTerminated
  simp [h]

theorem executeIfTerminated_frame (E : Driver D V) (st : State D)
    (h : HasSuffix (TrimSpace st.sqlBuffer) ";" = true) :
    executeIfTerminated E st =
      { st with sqlBuffer := "",
                terminal := (E.query st.terminal (TrimSpace (TrimSpace st.sqlBuffer))).1,
                calls := st.calls ++ [Call.ExecuteQuery (TrimSpace st.sqlBuffer),
                  Call.Query (TrimSpace (TrimSpace st.sqlBuffer)),
                  Call.writeLastSQL (TrimSpace st.sqlBuffer)],
                lastSqlFile := match st.lastSqlWriteError with
                  | some _ => st.lastSqlFile
                  | none => Except.ok (TrimSpace st.sqlBuffer),
                stdout := (executeIfTerminated E st).stdout } := by
  unfold executeIfTerminated
  rw [if_pos h]
  simp only
  have hf := ExecuteQuery_frame E st (TrimSpace st.sqlBuffer)
  generalize ExecuteQuery E st (TrimSpace st.sqlBuffer) = run at hf ⊢
  obtain ⟨r1, r2⟩ := run
  simp only at hf
  have hex : ∃ o, r1 = { st with
      terminal := (E.query st.terminal (TrimSpace (TrimSpace st.sqlBuffer))).1,
      calls := st.calls ++ [Call.ExecuteQuery (TrimSpace st.sqlBuffer),
        Call.Query (TrimSpace (TrimSpace st.sqlBuffer))],
      stdout := o } := ⟨_, hf⟩
  obtain ⟨o, rfl⟩ := hex
  cases r2 <;> cases hw : st.lastSqlWriteError <;>
    simp [writeLastSQL, Println, Print, hw]

theorem ls_frame (st : State D) : ls st = { st with stdout := (ls st).stdout } := by
  unfold ls
  cases selectAll st with
  | error err => rfl
  | ok rows =>
    simp only
    have key : ∀ (l : List Bookmark) (s : State D),
        l.foldl (fun st b => Print st (toString b.id ++ ". " ++ b.content ++ "\n")) s =
          { s with stdout := (l.foldl
            (fun st b => Print st (toString b.id ++ ". " ++ b.content ++ "\n")) s).stdout } := by
      intro l
      induction l with
      | nil => intro s; rfl
      | cons a t ih => intro s; simp only [List.foldl_cons]; rw [ih]; rfl
    split
    · rw [key]; rfl
    · rw [key]

theorem meta_frame (st : State D) :
    ((ls st).sqlBuffer = st.sqlBuffer ∧ (ls st).calls = st.calls ∧
      (ls st).terminal = st.terminal ∧ (ls st).lastSqlFile = st.lastSqlFile) ∧
    ((unstar st).sqlBuffer = st.sqlBuffer ∧ (unstar st).calls = st.calls ∧
      (unstar st).terminal = st.terminal ∧ (unstar st).lastSqlFile = st.lastSqlFile) ∧
    ((star st).sqlBuffer = st.sqlBuffer ∧ (star st).calls = st.calls ∧
      (star st).terminal = st.terminal ∧ (star st).lastSqlFile = st.lastSqlFile) ∧
    ((zip st).sqlBuffer = st.sqlBuffer ∧ (zip st).calls = st.calls ∧
      (zip st).terminal = st.terminal ∧ (zip st).lastSqlFile = st.lastSqlFile) := by
  refine ⟨?_, ?_, ?_, ?_⟩
  · rw [ls_frame]; simp
  · unfold unstar readLastSQL deleteStar
    cases h1 : st.lastSqlFile <;> cases h2 : st.starDBError <;> simp [Println, Print, h1]
  · unfold star readLastSQL insertStar
    cases h1 : st.lastSqlFile <;> cases h2 : st.starDBError <;> simp [Println, Print, h1]
  · unfold zip zipStars
    cases st.starDBError <;> simp [Println, Print]

/-! ### The dispatch of a line -/

theorem mainIteration_fragment (E : Driver D V) (line : String) (st : State D)
    (hk : ToLower line ∉ keywords) (ha : Atoi (TrimSpace line) = none) :
    mainIteration E line st =
      Outcome.next (executeIfTerminated E
        { st with sqlBuffer := st.sqlBuffer ++ (line ++ " ") }) := by
  simp only [keywords, List.mem_cons, List.mem_singleton, List.not_mem_nil, or_false,
    not_or] at hk
  obtain ⟨h1, h2, h3, h4, h5⟩ := hk
  unfold mainIteration
  rw [if_neg h1, if_neg h2, if_neg h3, if_neg h4, if_neg h5, ha]

theorem mainIteration_number (E : Driver D V) (line : String) (st : State D) (id : Int)
    (ha : Atoi (TrimSpace line) = some id) :
    mainIteration E line st =
      match selectContent st id with
      | Except.error ScanError.ErrNoRows => Outcome.next (Println st "no such index.")
      | Except.error (ScanError.other err) => Outcome.next (Println st ("Error: " ++ err))
      | Except.ok content =>
        Outcome.next (executeIfTerminated E
          { Print st ("SQL> " ++ content ++ "\n") with sqlBuffer := content }) := by
  have hk := atoi_not_keyword line id ha
  simp only [keywords, List.mem_cons, List.mem_singleton, List.not_mem_nil, or_false,
    not_or] at hk
  obtain ⟨h1, h2, h3, h4, h5⟩ := hk
  unfold mainIteration
  rw [if_neg h1, if_neg h2, if_neg h3, if_neg h4, if_neg h5]
  simp only [ha]

theorem mainIteration_keyword (E : Driver D V) (line : String) (st : State D) :
    (ToLower line = "exit" → mainIteration E line st = Outcome.stop st) ∧
    (ToLower line = "ls" → mainIteration E line st = Outcome.next (ls st)) ∧
    (ToLower line = "unstar" → mainIteration E line st = Outcome.next (unstar st)) ∧
    (ToLower line = "star" → mainIteration E line st = Outcome.next (star st)) ∧
    (ToLower line = "zip" → mainIteration E line st = Outcome.next (zip st)) := by
  refine ⟨?_, ?_, ?_, ?_, ?_⟩ <;> intro h <;> unfold mainIteration <;> rw [h] <;> simp

/-! ### The terminator -/

theorem terminated_iff (s : String) :
    HasSuffix (TrimSpace s) ";" = false ↔ lastVisible s.data ≠ some ';' := by
  rw [Ne, ← hasSuffix_trim_iff, Bool.not_eq_true]

theorem append_not_terminated (b line : String)
    (hb : HasSuffix (TrimSpace b) ";" = false) (hl : HasSuffix (TrimSpace line) ";" = false) :
    HasSuffix (TrimSpace (b ++ (line ++ " "))) ";" = false := by
  rw [terminated_iff] at *
  rw [String.data_append, String.data_append, lastVisible_append, lastVisible_append,
    lastVisible_space]
  cases h : lastVisible line.data with
  | none => simpa [h] using hb
  | some c => rw [h] at hl; simpa using hl

theorem executeIfTerminated_not_terminated (E : Driver D V) (st : State D) :
    HasSuffix (TrimSpace (executeIfTerminated E st).sqlBuffer) ";" = false := by
  cases h : HasSuffix (TrimSpace st.sqlBuffer) ";" with
  | false => rw [executeIfTerminated_of_not E st h]; exact h
  | true =>
    rw [executeIfTerminated_frame E st h]
    show HasSuffix (TrimSpace "") ";" = false
    decide

theorem mainIteration_not_terminated (E : Driver D V) (line : String) (st : State D)
    (h : HasSuffix (TrimSpace st.sqlBuffer) ";" = false) :
    HasSuffix (TrimSpace (mainIteration E line st).state.sqlBuffer) ";" = false := by
  obtain ⟨k1, k2, k3, k4, k5⟩ := mainIteration_keyword E line st
  obtain ⟨f1, f2, f3, f4⟩ := meta_frame st
  by_cases h1 : ToLower line = "exit"
  · rw [k1 h1]; exact h
  by_cases h2 : ToLower line = "ls"
  · rw [k2 h2]; show HasSuffix (TrimSpace (ls st).sqlBuffer) ";" = false; rw [f1.1]; exact h
  by_cases h3 : ToLower line = "unstar"
  · rw [k3 h3]; show HasSuffix (TrimSpace (unstar st).sqlBuffer) ";" = false
    rw [f2.1]; exact h
  by_cases h4 : ToLower line = "star"
  · rw [k4 h4]; show HasSuffix (TrimSpace (star st).sqlBuffer) ";" = false
    rw [f3.1]; exact h
  by_cases h5 : ToLower line = "zip"
  · rw [k5 h5]; show HasSuffix (TrimSpace (zip st).sqlBuffer) ";" = false
    rw [f4.1]; exact h
  have hk : ToLower line ∉ keywords := by simp [keywords, h1, h2, h3, h4, h5]
  cases ha : Atoi (TrimSpace line) with
  | none =>
    rw [mainIteration_fragment E line st hk ha]
    exact executeIfTerminated_not_terminated E _
  | some id =>
    rw [mainIteration_number E line st id ha]
    cases hs : selectContent st id with
    | error e =>
      cases e with
      | ErrNoRows => exact h
      | other err => exact h
    | ok content => exact executeIfTerminated_not_terminated E _

theorem checkedIteration_eq (E : Driver D V) (line : String) (st : State D)
    (h : HasSuffix (TrimSpace st.sqlBuffer) ";" = false) :
    checkedIteration E line st = mainIteration E line st := by
  obtain ⟨f1, f2, f3, f4⟩ := meta_frame st
  unfold checkedIteration mainIteration
  rw [executeIfTerminated_of_not E (ls st) (by rw [f1.1]; exact h),
    executeIfTerminated_of_not E (unstar st) (by rw [f2.1]; exact h),
    executeIfTerminated_of_not E (star st) (by rw [f3.1]; exact h),
    executeIfTerminated_of_not E (zip st) (by rw [f4.1]; exact h)]
  split
  · rfl
  split
  · rfl
  split
  · rfl
  split
  · rfl
  split
  · rfl
  cases Atoi (TrimSpace line) with
  | none => rfl
  | some id =>
    simp only
    cases selectContent st id with
    | error e =>
      cases e with
      | ErrNoRows =>
        simp only
        rw [executeIfTerminated_of_not E (Println st "no such index.") h]
      | other err =>
        simp only
        rw [executeIfTerminated_of_not E (Println st ("Error: " ++ err)) h]
    | ok content => rfl

/-! ### The loop -/

theorem mainLoop_fragments (E : Driver D V) :
    ∀ (lines : List String) (st : State D),
      HasSuffix (TrimSpace st.sqlBuffer) ";" = false →
      (∀ l ∈ lines, ToLower l ∉ keywords ∧ Atoi (TrimSpace l) = none ∧
        HasSuffix (TrimSpace l) ";" = false) →
      mainLoop E lines st =
        { st with sqlBuffer := st.sqlBuffer ++ accumulated lines,
                  stdout := st.stdout ++ List.replicate (lines.length + 1) "SQL> " } := by
  intro lines
  induction lines with
  | nil =>
    intro st _ _
    simp [mainLoop, Print, accumulated]
  | cons line rest ih =>
    intro st hb hl
    obtain ⟨hk, ha, hs⟩ := hl line (List.mem_cons_self _ _)
    have hnt := append_not_terminated st.sqlBuffer line hb hs
    simp only [mainLoop]
    rw [mainIteration_fragment E line _ hk ha, executeIfTerminated_of_not E _ hnt]
    simp only
    rw [ih _ hnt (fun l hl2 => hl l (List.mem_cons_of_mem _ hl2))]
    simp [Print, accumulated, List.replicate_succ, String.append_assoc]

theorem boundaries_not_terminated (E : Driver D V) :
    ∀ (lines : List String) (st : State D),
      HasSuffix (TrimSpace st.sqlBuffer) ";" = false →
      ∀ s ∈ boundaries E lines st, HasSuffix (TrimSpace s.sqlBuffer) ";" = false := by
  intro lines
  induction lines with
  | nil =>
    intro st h s hs
    simp only [boundaries, List.mem_singleton] at hs
    rw [hs]; exact h
  | cons line rest ih =>
    intro st h s hs
    simp only [boundaries, List.mem_cons] at hs
    rcases hs with rfl | hs
    · exact h
    · have hi := mainIteration_not_terminated E line (Print st "SQL> ") h
      cases hm : mainIteration E line (Print st "SQL> ") with
      | stop st1 =>
        rw [hm] at hs hi
        simp only [List.mem_singleton] at hs
        rw [hs]; exact hi
      | next st1 =>
        rw [hm] at hs hi
        exact ih st1 hi s hs

theorem checkedLoop_eq (E : Driver D V) :
    ∀ (lines : List String) (st : State D),
      HasSuffix (TrimSpace st.sqlBuffer) ";" = false →
      checkedLoop E lines st = mainLoop E lines st := by
  intro lines
  induction lines with
  | nil => intro st _; rfl
  | cons line rest ih =>
    intro st h
    have hp : HasSuffix (TrimSpace (Print st "SQL> ").sqlBuffer) ";" = false := h
    simp only [checkedLoop, mainLoop]
    rw [checkedIteration_eq E line _ hp]
    have hi := mainIteration_not_terminated E line (Print st "SQL> ") hp
    cases hm : mainIteration E line (Print st "SQL> ") with
    | stop st1 => rfl
    | next st1 =>
      rw [hm] at hi
      exact ih st1 hi

/-! ### Standard output only grows -/

theorem printRows_stdout (E : Driver D V) (scans : List (Except String (List (Option V)))) :
    ∀ st : State D, st.stdout <+: (printRows E st scans).1.stdout := by
  induction scans with
  | nil => intro st; exact List.prefix_refl _
  | cons a rest ih =>
    intro st
    cases a with
    | error err => exact List.prefix_refl _
    | ok values =>
      simp only [printRows]
      exact (List.prefix_append st.stdout _).trans
        (ih (Println st (Join (values.map (renderField E)) " | ")))

theorem ExecuteQuery_stdout (E : Driver D V) (st : State D) (s : String) :
    st.stdout <+: (ExecuteQuery E st s).1.stdout := by
  unfold ExecuteQuery
  simp only
  split
  · exact List.prefix_refl _
  · exact List.prefix_refl _
  · split
    · exact List.prefix_refl _
    · refine List.IsPrefix.trans ?_ (printRows_stdout E _ _)
      simp only [Println, Print, List.append_assoc]
      exact List.prefix_append _ _

theorem executeIfTerminated_stdout (E : Driver D V) (st : State D) :
    st.stdout <+: (executeIfTerminated E st).stdout := by
  unfold executeIfTerminated
  split
  · simp only
    have h := ExecuteQuery_stdout E st (TrimSpace st.sqlBuffer)
    generalize ExecuteQuery E st (TrimSpace st.sqlBuffer) = run at h ⊢
    obtain ⟨r1, r2⟩ := run
    simp only at h
    cases r2 <;> cases hw : r1.lastSqlWriteError <;>
      simp only [writeLastSQL, Println, Print, hw] <;>
      first
        | exact h
        | exact h.trans (List.prefix_append _ _)
        | exact h.trans ((List.prefix_append _ _).trans (List.prefix_append _ _))
  · exact List.prefix_refl _

/-! ### The rendering of a result set -/

theorem join_replicate_data (n : Nat) (acc : String) :
    (List.foldl (fun r s => r ++ s) acc (List.replicate n "-")).data =
      acc.data ++ List.replicate n '-' := by
  induction n generalizing acc with
  | zero => simp
  | succ k ih =>
    rw [List.replicate_succ, List.foldl_cons, ih, String.data_append]
    show acc.data ++ ['-'] ++ List.replicate k '-' = acc.data ++ List.replicate (k + 1) '-'
    rw [List.replicate_succ]
    simp

theorem repeat_dash_data (n : Nat) : (Repeat "-" n).data = List.replicate n '-' := by
  unfold Repeat String.join
  rw [join_replicate_data]
  rfl

theorem printRows_ok (E : Driver D V) (rows : List (List (Option V))) :
    ∀ st : State D, printRows E st (rows.map Except.ok) =
      ({ st with stdout := st.stdout ++ rows.map (renderRow E) }, none) := by
  induction rows with
  | nil => intro st; simp [printRows]
  | cons r rest ih =>
    intro st
    simp only [List.map_cons, printRows]
    rw [ih]
    simp [Println, Print, renderRow]

theorem printRows_error (E : Driver D V) (rows : List (List (Option V))) (err : String)
    (rest : List (Except String (List (Option V)))) :
    ∀ st : State D, printRows E st (rows.map Except.ok ++ Except.error err :: rest) =
      ({ st with stdout := st.stdout ++ rows.map (renderRow E) }, some err) := by
  induction rows with
  | nil => intro st; simp [printRows]
  | cons r more ih =>
    intro st
    show printRows E (Println st (Join (r.map (renderField E)) " | "))
      (more.map Except.ok ++ Except.error err :: rest) = _
    rw [ih]
    simp [Println, Print, renderRow]

/-! ### The bookmark commands -/

theorem foldl_print (l : List Bookmark) :
    ∀ st : State D,
      l.foldl (fun st b => Print st (toString b.id ++ ". " ++ b.content ++ "\n")) st =
        { st with stdout := st.stdout ++ l.map renderBookmark } := by
  induction l with
  | nil => intro st; simp
  | cons a t ih =>
    intro st
    rw [List.foldl_cons, ih]
    simp [Print, renderBookmark]

theorem ls_eq (st : State D) (h : st.starDBError = none) :
    ls st = { st with stdout := st.stdout ++
      (if (orderById st.starList).isEmpty then ["no data\n"]
       else (orderById st.starList).map renderBookmark) } := by
  unfold ls selectAll
  rw [h]
  simp only
  rw [foldl_print]
  cases hl : (orderById st.starList) with
  | nil => simp [Println, Print, h]
  | cons a t => simp [h]

theorem star_eq (st : State D) (s : String) (hf : st.lastSqlFile = Except.ok s)
    (h : st.starDBError = none) :
    star st = { st with starList := st.starList ++ [⟨nextId st, s⟩],
                        sqliteSequence := some (nextId st),
                        stdout := st.stdout ++ ["starred\n"] } := by
  unfold star readLastSQL insertStar
  rw [hf, h]
  rfl

theorem unstar_eq (st : State D) (s : String) (hf : st.lastSqlFile = Except.ok s)
    (h : st.starDBError = none) :
    unstar st = { st with starList := st.starList.filter (fun b => b.content != s),
                          stdout := st.stdout ++ ["success\n"] } := by
  unfold unstar readLastSQL deleteStar
  rw [hf, h]
  rfl

theorem mem_orderById (b : Bookmark) (l : List Bookmark) : b ∈ orderById l ↔ b ∈ l :=
  (List.perm_insertionSort _ l).mem_iff

/-! ## The claims -/

/-- C1: when every line of the input is handled as an SQL fragment (its lower
case is none of the five keywords and its trimmed text is no integer) and no
line's trimmed text ends with `;`, the loop started on the empty buffer calls
neither `ExecuteQuery` nor the working database nor `writeLastSQL`, leaves the
persisted last SQL alone, and ends with the buffer made of each line followed
by one space, in input order. -/
theorem fragments_accumulate_without_execution (E : Driver D V) (lines : List String)
    (st : State D) (hb : st.sqlBuffer = "")
    (hl : ∀ l ∈ lines, ToLower l ∉ keywords ∧ Atoi (TrimSpace l) = none ∧
      HasSuffix (TrimSpace l) ";" = false) :
    (mainLoop E lines st).calls = st.calls ∧
    (mainLoop E lines st).lastSqlFile = st.lastSqlFile ∧
    (mainLoop E lines st).terminal = st.terminal ∧
    (mainLoop E lines st).sqlBuffer = accumulated lines := by
  have h0 : HasSuffix (TrimSpace st.sqlBuffer) ";" = false := by rw [hb]; decide
  rw [mainLoop_fragments E lines st h0 hl, hb]
  refine ⟨rfl, rfl, rfl, ?_⟩
  show "" ++ accumulated lines = accumulated lines
  exact String.empty_append _

/-- Witness of C1: three fragments, one of them blank, typed into a fresh
session. -/
theorem fragments_accumulate_without_execution_witness :
    (freshState.sqlBuffer = "" ∧
      ∀ l ∈ ["select 1", "", "  from t"], ToLower l ∉ keywords ∧
        Atoi (TrimSpace l) = none ∧ HasSuffix (TrimSpace l) ";" = false) ∧
    ((mainLoop sampleDriver ["select 1", "", "  from t"] freshState).calls = freshState.calls ∧
      (mainLoop sampleDriver ["select 1", "", "  from t"] freshState).lastSqlFile =
        freshState.lastSqlFile ∧
      (mainLoop sampleDriver ["select 1", "", "  from t"] freshState).terminal =
        freshState.terminal ∧
      (mainLoop sampleDriver ["select 1", "", "  from t"] freshState).sqlBuffer =
        accumulated ["select 1", "", "  from t"]) :=
  ⟨⟨rfl, by decide⟩,
    fragments_accumulate_without_execution sampleDriver ["select 1", "", "  from t"] freshState
      rfl (by decide)⟩

/-- When `ExecuteQuery` returns an error, the terminator check prints it. -/
theorem executeIfTerminated_prints_error (E : Driver D V) (st : State D) (err : String)
    (ht : HasSuffix (TrimSpace st.sqlBuffer) ";" = true)
    (he : (ExecuteQuery E st (TrimSpace st.sqlBuffer)).2 = some err) :
    "Execute error: " ++ err ++ "\n" ∈ (executeIfTerminated E st).stdout := by
  unfold executeIfTerminated
  rw [if_pos ht]
  simp only
  generalize ExecuteQuery E st (TrimSpace st.sqlBuffer) = run at he ⊢
  obtain ⟨r1, r2⟩ := run
  simp only at he
  subst he
  cases hw : r1.lastSqlWriteError <;> simp [writeLastSQL, Println, Print, hw]

/-- C2: when the loop reaches its terminator check with a buffer `b` whose
trimmed content ends with `;`, it executes it: `ExecuteQuery` receives
`TrimSpace b`, the working database receives the same string (trimming it again
changes nothing, and it ends with `;`), `writeLastSQL` receives the same string
whatever `ExecuteQuery` returned (an error is printed and the write still
happens), the file holds it when the write succeeds, and the buffer is empty
afterwards.  The loop reaches the check with such a buffer, and goes on to the
next iteration, both after appending a fragment and after recalling a
bookmark. -/
theorem executed_statement_is_persisted (E : Driver D V) (st1 : State D)
    (ht : HasSuffix (TrimSpace st1.sqlBuffer) ";" = true) :
    (executeIfTerminated E st1).calls =
      st1.calls ++ [Call.ExecuteQuery (TrimSpace st1.sqlBuffer),
        Call.Query (TrimSpace st1.sqlBuffer), Call.writeLastSQL (TrimSpace st1.sqlBuffer)] ∧
    TrimSpace (TrimSpace st1.sqlBuffer) = TrimSpace st1.sqlBuffer ∧
    (st1.lastSqlWriteError = none →
      (executeIfTerminated E st1).lastSqlFile = Except.ok (TrimSpace st1.sqlBuffer)) ∧
    (∀ err : String, (ExecuteQuery E st1 (TrimSpace st1.sqlBuffer)).2 = some err →
      "Execute error: " ++ err ++ "\n" ∈ (executeIfTerminated E st1).stdout ∧
      Call.writeLastSQL (TrimSpace st1.sqlBuffer) ∈ (executeIfTerminated E st1).calls) ∧
    (executeIfTerminated E st1).sqlBuffer = "" ∧
    (∀ (line : String) (st : State D), ToLower line ∉ keywords →
      Atoi (TrimSpace line) = none →
      { st with sqlBuffer := st.sqlBuffer ++ (line ++ " ") } = st1 →
      mainIteration E line st = Outcome.next (executeIfTerminated E st1)) ∧
    (∀ (line : String) (st : State D) (id : Int) (c : String),
      Atoi (TrimSpace line) = some id → selectContent st id = Except.ok c →
      { Print st ("SQL> " ++ c ++ "\n") with sqlBuffer := c } = st1 →
      mainIteration E line st = Outcome.next (executeIfTerminated E st1)) := by
  have hc : (executeIfTerminated E st1).calls =
      st1.calls ++ [Call.ExecuteQuery (TrimSpace st1.sqlBuffer),
        Call.Query (TrimSpace st1.sqlBuffer),
        Call.writeLastSQL (TrimSpace st1.sqlBuffer)] := by
    rw [executeIfTerminated_frame E st1 ht, trimSpace_idempotent]
  refine ⟨hc, trimSpace_idempotent _, ?_, ?_, ?_, ?_, ?_⟩
  · intro hn
    rw [executeIfTerminated_frame E st1 ht]
    simp [hn]
  · intro err he
    refine ⟨executeIfTerminated_prints_error E st1 err ht he, ?_⟩
    rw [hc]
    simp
  · rw [executeIfTerminated_frame E st1 ht]
  · intro line st hk ha hst
    rw [mainIteration_fragment E line st hk ha, hst]
  · intro line st id c ha hs hst
    rw [mainIteration_number E line st id ha, hs]
    simp only [hst]

/-- Witness of C2: the line `drop;` typed after `select`, a statement the
sample database rejects; it is persisted all the same. -/
theorem executed_statement_is_persisted_witness :
    HasSuffix (TrimSpace ({ freshState with sqlBuffer := "select drop; " } :
      State Unit).sqlBuffer) ";" = true ∧
    (executeIfTerminated sampleDriver { freshState with sqlBuffer := "select drop; " }).calls =
      [Call.ExecuteQuery "select drop;", Call.Query "select drop;",
        Call.writeLastSQL "select drop;"] ∧
    (executeIfTerminated sampleDriver
      { freshState with sqlBuffer := "select drop; " }).lastSqlFile =
        Except.ok "select drop;" ∧
    "Execute error: SQL logic error\n" ∈ (executeIfTerminated sampleDriver
      { freshState with sqlBuffer := "select drop; " }).stdout ∧
    (executeIfTerminated sampleDriver
      { freshState with sqlBuffer := "select drop; " }).sqlBuffer = "" ∧
    mainIteration sampleDriver "drop;" { freshState with sqlBuffer := "select " } =
      Outcome.next (executeIfTerminated sampleDriver
        { freshState with sqlBuffer := "select drop; " }) :=
  ⟨by decide,
    (executed_statement_is_persisted sampleDriver
      { freshState with sqlBuffer := "select drop; " } (by decide)).1,
    (executed_statement_is_persisted sampleDriver
      { freshState with sqlBuffer := "select drop; " } (by decide)).2.2.1 rfl,
    ((executed_statement_is_persisted sampleDriver
      { freshState with sqlBuffer := "select drop; " } (by decide)).2.2.2.1
        "SQL logic error" rfl).1,
    (executed_statement_is_persisted sampleDriver
      { freshState with sqlBuffer := "select drop; " } (by decide)).2.2.2.2.1,
    (executed_statement_is_persisted sampleDriver
      { freshState with sqlBuffer := "select drop; " } (by decide)).2.2.2.2.2.1
        "drop;" { freshState with sqlBuffer := "select " } (by decide) (by decide) rfl⟩

/-- C3: for a line whose trimmed text is an integer id under which the bookmark
table holds the content `c`, the iteration does not depend on the pending
buffer: `SQL> c` is printed first and the buffer is replaced by `c`; when
`TrimSpace c` ends with `;` it is executed on the working database and handed
to `writeLastSQL` in the same iteration and the buffer ends empty; otherwise
nothing is executed or persisted and the buffer is exactly `c`. -/
theorem recall_replaces_buffer (E : Driver D V) (line : String) (st : State D) (id : Int)
    (c : String) (ha : Atoi (TrimSpace line) = some id)
    (hc : selectContent st id = Except.ok c) :
    (∀ b b2 : String, mainIteration E line { st with sqlBuffer := b } =
      mainIteration E line { st with sqlBuffer := b2 }) ∧
    ∃ st2 : State D, mainIteration E line st = Outcome.next st2 ∧
      st.stdout ++ ["SQL> " ++ c ++ "\n"] <+: st2.stdout ∧
      (HasSuffix (TrimSpace c) ";" = true →
        st2.calls = st.calls ++ [Call.ExecuteQuery (TrimSpace c), Call.Query (TrimSpace c),
          Call.writeLastSQL (TrimSpace c)] ∧
        (st.lastSqlWriteError = none → st2.lastSqlFile = Except.ok (TrimSpace c)) ∧
        st2.sqlBuffer = "") ∧
      (HasSuffix (TrimSpace c) ";" = false →
        st2 = { st with sqlBuffer := c, stdout := st.stdout ++ ["SQL> " ++ c ++ "\n"] }) := by
  constructor
  · intro b b2
    have e1 := mainIteration_number E line { st with sqlBuffer := b } id ha
    have e2 := mainIteration_number E line { st with sqlBuffer := b2 } id ha
    have s1 : selectContent { st with sqlBuffer := b } id = Except.ok c := hc
    have s2 : selectContent { st with sqlBuffer := b2 } id = Except.ok c := hc
    rw [s1] at e1
    rw [s2] at e2
    rw [e1, e2]
    rfl
  · have e := mainIteration_number E line st id ha
    rw [hc] at e
    refine ⟨_, e, ?_, ?_, ?_⟩
    · exact executeIfTerminated_stdout E
        { Print st ("SQL> " ++ c ++ "\n") with sqlBuffer := c }
    · intro ht
      have hf := executeIfTerminated_frame E
        { Print st ("SQL> " ++ c ++ "\n") with sqlBuffer := c } ht
      refine ⟨?_, ?_, ?_⟩
      · rw [hf]
        show st.calls ++ _ = _
        rw [trimSpace_idempotent]
      · intro hn
        rw [hf]
        show (match st.lastSqlWriteError with
          | some _ => st.lastSqlFile
          | none => Except.ok (TrimSpace c)) = _
        rw [hn]
      · rw [hf]
    · intro ht
      exact executeIfTerminated_of_not E
        { Print st ("SQL> " ++ c ++ "\n") with sqlBuffer := c } ht

/-- Witness of C3: bookmark 2 holds `SELECT 1;` and the line ` 2 ` is typed
while `select` is pending. -/
theorem recall_replaces_buffer_witness :
    (Atoi (TrimSpace " 2 ") = some 2 ∧
      selectContent bookmarkedState 2 = Except.ok "SELECT 1;") ∧
    ((∀ b b2 : String,
        mainIteration sampleDriver " 2 " { bookmarkedState with sqlBuffer := b } =
          mainIteration sampleDriver " 2 " { bookmarkedState with sqlBuffer := b2 }) ∧
      ∃ st2 : State Unit,
        mainIteration sampleDriver " 2 " bookmarkedState = Outcome.next st2 ∧
        bookmarkedState.stdout ++ ["SQL> " ++ "SELECT 1;" ++ "\n"] <+: st2.stdout ∧
        (HasSuffix (TrimSpace "SELECT 1;") ";" = true →
          st2.calls = bookmarkedState.calls ++
            [Call.ExecuteQuery (TrimSpace "SELECT 1;"), Call.Query (TrimSpace "SELECT 1;"),
              Call.writeLastSQL (TrimSpace "SELECT 1;")] ∧
          (bookmarkedState.lastSqlWriteError = none →
            st2.lastSqlFile = Except.ok (TrimSpace "SELECT 1;")) ∧
          st2.sqlBuffer = "") ∧
        (HasSuffix (TrimSpace "SELECT 1;") ";" = false →
          st2 = { bookmarkedState with
            sqlBuffer := "SELECT 1;",
            stdout := bookmarkedState.stdout ++ ["SQL> " ++ "SELECT 1;" ++ "\n"] })) :=
  ⟨⟨by decide, rfl⟩,
    recall_replaces_buffer sampleDriver " 2 " bookmarkedState 2 "SELECT 1;"
      (by decide) rfl⟩

/-- C4: in a run of the loop started on the empty buffer, no iteration begins
or ends with a buffer whose trimmed content ends with `;`, whatever the lines
are; hence the loop of the code, which skips the terminator check after `ls`,
`unstar`, `star`, `zip` and a failed lookup, ends in the same state as the loop
that performs the check after each of them. -/
theorem terminated_buffer_never_pending (E : Driver D V) (lines : List String)
    (st : State D) (hb : st.sqlBuffer = "") :
    (∀ s ∈ boundaries E lines st, HasSuffix (TrimSpace s.sqlBuffer) ";" = false) ∧
    mainLoop E lines st = checkedLoop E lines st := by
  have h0 : HasSuffix (TrimSpace st.sqlBuffer) ";" = false := by rw [hb]; decide
  exact ⟨boundaries_not_terminated E lines st h0, (checkedLoop_eq E lines st h0).symm⟩

/-- Witness of C4: a session mixing fragments, an executed statement, the
meta-commands and recalls. -/
theorem terminated_buffer_never_pending_witness :
    freshState.sqlBuffer = "" ∧
    ((∀ s ∈ boundaries sampleDriver
        ["select", "1;", "SELECT 1;", "star", "LS", "1", "7", "zip", "x", "unstar", "exit", ";"]
        freshState, HasSuffix (TrimSpace s.sqlBuffer) ";" = false) ∧
      mainLoop sampleDriver
        ["select", "1;", "SELECT 1;", "star", "LS", "1", "7", "zip", "x", "unstar", "exit", ";"]
        freshState =
      checkedLoop sampleDriver
        ["select", "1;", "SELECT 1;", "star", "LS", "1", "7", "zip", "x", "unstar", "exit", ";"]
        freshState) :=
  ⟨rfl, terminated_buffer_never_pending sampleDriver
    ["select", "1;", "SELECT 1;", "star", "LS", "1", "7", "zip", "x", "unstar", "exit", ";"]
    freshState rfl⟩

/-- C5: a line that is `ls`, `unstar`, `star` or `zip` in any letter case, or
whose trimmed text is an integer id that no bookmark carries, leaves the
buffer, the calls made (so neither `ExecuteQuery` nor `writeLastSQL` is
called), the working database and the persisted last SQL as they were, and the
loop goes on; for the missing id the iteration prints the one line
`no such index.` and nothing else. -/
theorem meta_commands_keep_buffer (E : Driver D V) (line : String) (st : State D) (id : Int)
    (h : ToLower line = "ls" ∨ ToLower line = "unstar" ∨ ToLower line = "star" ∨
      ToLower line = "zip" ∨
      (Atoi (TrimSpace line) = some id ∧ st.starDBError = none ∧
        ∀ b ∈ st.starList, b.id ≠ id)) :
    ∃ st2 : State D, mainIteration E line st = Outcome.next st2 ∧
      st2.sqlBuffer = st.sqlBuffer ∧ st2.calls = st.calls ∧
      st2.terminal = st.terminal ∧ st2.lastSqlFile = st.lastSqlFile ∧
      (Atoi (TrimSpace line) = some id → st.starDBError = none →
        (∀ b ∈ st.starList, b.id ≠ id) →
        st2.stdout = st.stdout ++ ["no such index.\n"] ∧ st2.starList = st.starList) := by
  have hmiss : Atoi (TrimSpace line) = some id → st.starDBError = none →
      (∀ b ∈ st.starList, b.id ≠ id) →
      mainIteration E line st = Outcome.next (Println st "no such index.") := by
    intro ha hd hn
    have hs : selectContent st id = Except.error ScanError.ErrNoRows := by
      unfold selectContent
      rw [hd]
      have : st.starList.find? (fun b => b.id == id) = none := by
        rw [List.find?_eq_none]
        intro b hb
        simpa using hn b hb
      simp only [this]
    rw [mainIteration_number E line st id ha, hs]
  obtain ⟨k1, k2, k3, k4, k5⟩ := mainIteration_keyword E line st
  obtain ⟨f1, f2, f3, f4⟩ := meta_frame st
  have hkw : ∀ st2 : State D, ToLower line ∈ keywords →
      mainIteration E line st = Outcome.next st2 →
      Atoi (TrimSpace line) = some id → st.starDBError = none →
        (∀ b ∈ st.starList, b.id ≠ id) →
        st2.stdout = st.stdout ++ ["no such index.\n"] ∧ st2.starList = st.starList := by
    intro st2 hk _ ha _ _
    exact absurd hk (atoi_not_keyword line id ha)
  rcases h with h | h | h | h | ⟨ha, hd, hn⟩
  · exact ⟨ls st, k2 h, f1.1, f1.2.1, f1.2.2.1, f1.2.2.2,
      hkw _ (by rw [h]; decide) (k2 h)⟩
  · exact ⟨unstar st, k3 h, f2.1, f2.2.1, f2.2.2.1, f2.2.2.2,
      hkw _ (by rw [h]; decide) (k3 h)⟩
  · exact ⟨star st, k4 h, f3.1, f3.2.1, f3.2.2.1, f3.2.2.2,
      hkw _ (by rw [h]; decide) (k4 h)⟩
  · exact ⟨zip st, k5 h, f4.1, f4.2.1, f4.2.2.1, f4.2.2.2,
      hkw _ (by rw [h]; decide) (k5 h)⟩
  · exact ⟨Println st "no such index.", hmiss ha hd hn, rfl, rfl, rfl, rfl,
      fun _ _ _ => ⟨rfl, rfl⟩⟩

/-- Witness of C5: the id 7 is typed while `select` is pending and the
bookmarks are 1 and 2. -/
theorem meta_commands_keep_buffer_witness :
    (ToLower " 7" = "ls" ∨ ToLower " 7" = "unstar" ∨ ToLower " 7" = "star" ∨
      ToLower " 7" = "zip" ∨
      (Atoi (TrimSpace " 7") = some 7 ∧ bookmarkedState.starDBError = none ∧
        ∀ b ∈ bookmarkedState.starList, b.id ≠ 7)) ∧
    ∃ st2 : State Unit, mainIteration sampleDriver " 7" bookmarkedState = Outcome.next st2 ∧
      st2.sqlBuffer = bookmarkedState.sqlBuffer ∧ st2.calls = bookmarkedState.calls ∧
      st2.terminal = bookmarkedState.terminal ∧
      st2.lastSqlFile = bookmarkedState.lastSqlFile ∧
      (Atoi (TrimSpace " 7") = some 7 → bookmarkedState.starDBError = none →
        (∀ b ∈ bookmarkedState.starList, b.id ≠ 7) →
        st2.stdout = bookmarkedState.stdout ++ ["no such index.\n"] ∧
          st2.starList = bookmarkedState.starList) :=
  ⟨Or.inr (Or.inr (Or.inr (Or.inr ⟨by decide, rfl, by decide⟩))),
    meta_commands_keep_buffer sampleDriver " 7" bookmarkedState 7
      (Or.inr (Or.inr (Or.inr (Or.inr ⟨by decide, rfl, by decide⟩))))⟩

/-- Counterexample to C9: the trimmed, lower-cased text of the line ` LS ` is
`ls`, yet the loop does not list the bookmarks (a fresh session would print
`no data`): it appends the line and a space to the buffer. -/
theorem padded_keyword_is_accumulated :
    ToLower (TrimSpace " LS ") = "ls" ∧
    (mainIteration sampleDriver " LS " freshState).state.sqlBuffer = " LS  " ∧
    (mainIteration sampleDriver " LS " freshState).state.stdout = [] ∧
    (ls freshState).stdout = ["no data\n"] := by
  refine ⟨by decide, ?_, ?_, ?_⟩ <;> rfl

/-- C9 as amended: the dispatch compares the lower-cased line, untrimmed, with
the keywords.  A line whose lower case is `exit` ends the loop, one whose lower
case is `ls`, `unstar`, `star` or `zip` runs that command; in all five cases
the buffer is left as it was, and the integer test plays no part: such a line
is no integer. -/
theorem dispatch_on_lowercased_line (E : Driver D V) (line : String) (st : State D)
    (h : ToLower line ∈ keywords) :
    (ToLower line = "exit" → mainIteration E line st = Outcome.stop st) ∧
    (ToLower line = "ls" → mainIteration E line st = Outcome.next (ls st)) ∧
    (ToLower line = "unstar" → mainIteration E line st = Outcome.next (unstar st)) ∧
    (ToLower line = "star" → mainIteration E line st = Outcome.next (star st)) ∧
    (ToLower line = "zip" → mainIteration E line st = Outcome.next (zip st)) ∧
    (mainIteration E line st).state.sqlBuffer = st.sqlBuffer ∧
    Atoi (TrimSpace line) = none := by
  obtain ⟨k1, k2, k3, k4, k5⟩ := mainIteration_keyword E line st
  obtain ⟨f1, f2, f3, f4⟩ := meta_frame st
  refine ⟨k1, k2, k3, k4, k5, ?_, ?_⟩
  · simp only [keywords, List.mem_cons, List.mem_singleton, List.not_mem_nil,
      or_false] at h
    rcases h with h | h | h | h | h
    · rw [k1 h]; rfl
    · rw [k2 h]; exact f1.1
    · rw [k3 h]; exact f2.1
    · rw [k4 h]; exact f3.1
    · rw [k5 h]; exact f4.1
  · cases ha : Atoi (TrimSpace line) with
    | none => rfl
    | some n => exact absurd h (atoi_not_keyword line n ha)

/-- Witness of the amended C9: the line `UnStar`. -/
theorem dispatch_on_lowercased_line_witness :
    ToLower "UnStar" ∈ keywords ∧
    ((ToLower "UnStar" = "exit" →
        mainIteration sampleDriver "UnStar" bookmarkedState = Outcome.stop bookmarkedState) ∧
      (ToLower "UnStar" = "ls" →
        mainIteration sampleDriver "UnStar" bookmarkedState =
          Outcome.next (ls bookmarkedState)) ∧
      (ToLower "UnStar" = "unstar" →
        mainIteration sampleDriver "UnStar" bookmarkedState =
          Outcome.next (unstar bookmarkedState)) ∧
      (ToLower "UnStar" = "star" →
        mainIteration sampleDriver "UnStar" bookmarkedState =
          Outcome.next (star bookmarkedState)) ∧
      (ToLower "UnStar" = "zip" →
        mainIteration sampleDriver "UnStar" bookmarkedState =
          Outcome.next (zip bookmarkedState)) ∧
      (mainIteration sampleDriver "UnStar" bookmarkedState).state.sqlBuffer =
        bookmarkedState.sqlBuffer ∧
      Atoi (TrimSpace "UnStar") = none) :=
  ⟨by decide, dispatch_on_lowercased_line sampleDriver "UnStar" bookmarkedState (by decide)⟩

/-- C6: when the working database answers with the column names `columns` and
the row scans `scans`, `ExecuteQuery` prints nothing and returns no error if
there is no column; with at least one column and `k` rows that all scan, it
prints the names joined by ` | `, then a line made of `-` only, then each row
in order with its fields joined by ` | ` (`NULL` for a null field, the generic
formatting otherwise), `k + 2` lines in all, one `Println` each, and returns no
error; and when the
scan of a row fails after `rows` good ones it returns that error, having
printed the header, the rule and those rows only. -/
theorem ExecuteQuery_renders_table (E : Driver D V) (st : State D) (sqlString : String)
    (d : D) (columns : List String) (scans : List (Except String (List (Option V))))
    (hq : E.query st.terminal (TrimSpace sqlString) = (d, QueryResult.rows columns scans)) :
    (columns = [] →
      (ExecuteQuery E st sqlString).2 = none ∧
      (ExecuteQuery E st sqlString).1.stdout = st.stdout) ∧
    (columns ≠ [] → ∀ rows : List (List (Option V)), scans = rows.map Except.ok →
      (ExecuteQuery E st sqlString).2 = none ∧
      (ExecuteQuery E st sqlString).1.stdout =
        st.stdout ++ ([Join columns " | " ++ "\n",
          Repeat "-" (len (Join columns " | ")) ++ "\n"] ++
          rows.map (fun values => Join (values.map (renderField E)) " | " ++ "\n")) ∧
      (ExecuteQuery E st sqlString).1.stdout.length = st.stdout.length + (rows.length + 2)) ∧
    (columns ≠ [] → ∀ (rows : List (List (Option V))) (err : String)
        (rest : List (Except String (List (Option V)))),
      scans = rows.map Except.ok ++ Except.error err :: rest →
      (ExecuteQuery E st sqlString).2 = some err ∧
      (ExecuteQuery E st sqlString).1.stdout =
        st.stdout ++ ([Join columns " | " ++ "\n",
          Repeat "-" (len (Join columns " | ")) ++ "\n"] ++
          rows.map (fun values => Join (values.map (renderField E)) " | " ++ "\n"))) ∧
    (∀ c ∈ (Repeat "-" (len (Join columns " | "))).data, c = '-') ∧
    renderField E none = "NULL" ∧ ∀ val : V, renderField E (some val) = E.format val := by
  have hq1 : (E.query st.terminal (TrimSpace sqlString)).2 = QueryResult.rows columns scans := by
    rw [hq]
  refine ⟨?_, ?_, ?_, ?_, rfl, fun _ => rfl⟩
  · intro hc
    subst hc
    unfold ExecuteQuery
    simp only [hq1]
    simp
  · intro hc rows hs
    have hlen : ¬ columns.length = 0 := by
      intro h0; exact hc (List.length_eq_zero.mp h0)
    subst hs
    have e : ExecuteQuery E st sqlString =
        ({ st with terminal := d,
                   calls := st.calls ++ [Call.ExecuteQuery sqlString,
                     Call.Query (TrimSpace sqlString)],
                   stdout := st.stdout ++ ([Join columns " | " ++ "\n",
                     Repeat "-" (len (Join columns " | ")) ++ "\n"] ++
                     rows.map (renderRow E)) }, none) := by
      unfold ExecuteQuery
      simp only [hq1, if_neg hlen]
      rw [printRows_ok]
      simp [Println, Print, hq]
    rw [e]
    refine ⟨rfl, rfl, ?_⟩
    simp
  · intro hc rows err rest hs
    have hlen : ¬ columns.length = 0 := by
      intro h0; exact hc (List.length_eq_zero.mp h0)
    subst hs
    have e : ExecuteQuery E st sqlString =
        ({ st with terminal := d,
                   calls := st.calls ++ [Call.ExecuteQuery sqlString,
                     Call.Query (TrimSpace sqlString)],
                   stdout := st.stdout ++ ([Join columns " | " ++ "\n",
                     Repeat "-" (len (Join columns " | ")) ++ "\n"] ++
                     rows.map (renderRow E)) }, some err) := by
      unfold ExecuteQuery
      simp only [hq1, if_neg hlen]
      rw [printRows_error]
      simp [Println, Print, hq]
    rw [e]
    exact ⟨rfl, rfl⟩
  · intro c hc
    rw [repeat_dash_data] at hc
    exact List.eq_of_mem_replicate hc

/-- Witness of C6: the statement `SELECT NULL, 2;` on the sample database. -/
theorem ExecuteQuery_renders_table_witness :
    sampleDriver.query freshState.terminal (TrimSpace "SELECT NULL, 2;") =
      ((), QueryResult.rows ["NULL", "2"] [Except.ok [none, some 2]]) ∧
    (ExecuteQuery sampleDriver freshState "SELECT NULL, 2;").2 = none ∧
    (ExecuteQuery sampleDriver freshState "SELECT NULL, 2;").1.stdout =
      ["NULL | 2\n", "--------\n", "NULL | 2\n"] :=
  ⟨rfl,
    ((ExecuteQuery_renders_table sampleDriver freshState "SELECT NULL, 2;" ()
      ["NULL", "2"] [Except.ok [none, some 2]] rfl).2.1 (by decide)
        [[none, some 2]] rfl).1,
    rfl⟩

/-- C8: after the loop has executed the buffer `b` and the write of the last
SQL succeeded, the file holds `TrimSpace b`.  As long as it does (no other
execution) and the bookmark database works: `star` appends exactly one bookmark
whose content is `TrimSpace b` and prints `starred`; a following `ls` prints
that bookmark as its id, `. ` and `TrimSpace b`; `unstar` removes the bookmarks
whose content is `TrimSpace b`, all of them and no other, and prints
`success`.  In a session with no bookmark, the lines `SELECT 1;`, `star`,
`unstar` leave no bookmark and `ls` then prints `no data`. -/
theorem star_then_unstar (E : Driver D V) (st : State D)
    (ht : HasSuffix (TrimSpace st.sqlBuffer) ";" = true)
    (hw : st.lastSqlWriteError = none) :
    (executeIfTerminated E st).lastSqlFile = Except.ok (TrimSpace st.sqlBuffer) ∧
    (∀ st1 : State D, st1.lastSqlFile = Except.ok (TrimSpace st.sqlBuffer) →
      st1.starDBError = none →
      star st1 = { st1 with
        starList := st1.starList ++ [⟨nextId st1, TrimSpace st.sqlBuffer⟩],
        sqliteSequence := some (nextId st1),
        stdout := st1.stdout ++ ["starred\n"] } ∧
      (∃ before after : List String, (ls (star st1)).stdout =
        (star st1).stdout ++ (before ++
          [toString (nextId st1) ++ ". " ++ TrimSpace st.sqlBuffer ++ "\n"] ++ after)) ∧
      unstar st1 = { st1 with
        starList := st1.starList.filter (fun b => b.content != TrimSpace st.sqlBuffer),
        stdout := st1.stdout ++ ["success\n"] } ∧
      (∀ b : Bookmark, b ∈ (unstar st1).starList ↔
        b ∈ st1.starList ∧ b.content ≠ TrimSpace st.sqlBuffer) ∧
      (unstar (star st1)).starList =
        st1.starList.filter (fun b => b.content != TrimSpace st.sqlBuffer)) ∧
    (∀ st0 : State D, st0.sqlBuffer = "" → st0.starList = [] → st0.starDBError = none →
      st0.lastSqlWriteError = none →
      ∃ s1 s2 s3 : State D,
        mainIteration E "SELECT 1;" st0 = Outcome.next s1 ∧
        s1.calls = st0.calls ++ [Call.ExecuteQuery "SELECT 1;", Call.Query "SELECT 1;",
          Call.writeLastSQL "SELECT 1;"] ∧
        mainIteration E "star" s1 = Outcome.next s2 ∧
        s2.starList = [⟨nextId s1, "SELECT 1;"⟩] ∧
        mainIteration E "unstar" s2 = Outcome.next s3 ∧
        s3.starList = [] ∧
        mainIteration E "ls" s3 = Outcome.next (Println s3 "no data")) := by
  have hfile : (executeIfTerminated E st).lastSqlFile = Except.ok (TrimSpace st.sqlBuffer) := by
    rw [executeIfTerminated_frame E st ht]
    simp [hw]
  have hstar : ∀ (s : String) (st1 : State D), st1.lastSqlFile = Except.ok s →
      st1.starDBError = none →
      (unstar (star st1)).starList = st1.starList.filter (fun b => b.content != s) := by
    intro s st1 hf hd
    have e1 := star_eq st1 s hf hd
    have hf2 : (star st1).lastSqlFile = Except.ok s := by rw [e1]; exact hf
    have hd2 : (star st1).starDBError = none := by rw [e1]; exact hd
    rw [unstar_eq (star st1) s hf2 hd2, e1]
    simp [List.filter_append]
  refine ⟨hfile, ?_, ?_⟩
  · intro st1 hf hd
    refine ⟨star_eq st1 _ hf hd, ?_, unstar_eq st1 _ hf hd, ?_, hstar _ st1 hf hd⟩
    · have hd2 : (star st1).starDBError = none := by
        rw [star_eq st1 _ hf hd]; exact hd
      rw [ls_eq _ hd2]
      have hmem : (⟨nextId st1, TrimSpace st.sqlBuffer⟩ : Bookmark) ∈
          orderById (star st1).starList := by
        rw [mem_orderById, star_eq st1 _ hf hd]
        simp
      have hne : (orderById (star st1).starList).isEmpty = false := by
        cases hl : orderById (star st1).starList with
        | nil => rw [hl] at hmem; simp at hmem
        | cons a t => rfl
      obtain ⟨l1, l2, hl⟩ := List.append_of_mem hmem
      refine ⟨l1.map renderBookmark, l2.map renderBookmark, ?_⟩
      simp [hne, hl, renderBookmark]
    · intro b
      rw [unstar_eq st1 _ hf hd]
      simp [List.mem_filter]
  · intro st0 hb hl hd hw0
    have hm := mainIteration_fragment E "SELECT 1;" st0 (by decide) (by decide)
    rw [hb] at hm
    have ht0 : HasSuffix (TrimSpace ("" ++ ("SELECT 1;" ++ " "))) ";" = true := by decide
    have hts : TrimSpace ("" ++ ("SELECT 1;" ++ " ")) = "SELECT 1;" := by decide
    have hfr := executeIfTerminated_frame E
      { st0 with sqlBuffer := "" ++ ("SELECT 1;" ++ " ") } ht0
    simp only [hts] at hfr
    generalize executeIfTerminated E { st0 with sqlBuffer := "" ++ ("SELECT 1;" ++ " ") } = s1
      at hm hfr
    have hf1 : s1.lastSqlFile = Except.ok "SELECT 1;" := by
      rw [hfr]; simp [hw0]
    have hd1 : s1.starDBError = none := by rw [hfr]; exact hd
    have hl1 : s1.starList = [] := by rw [hfr]; exact hl
    have hc1 : s1.calls = st0.calls ++ [Call.ExecuteQuery "SELECT 1;",
        Call.Query "SELECT 1;", Call.writeLastSQL "SELECT 1;"] := by
      rw [hfr]
      show st0.calls ++ [Call.ExecuteQuery "SELECT 1;", Call.Query (TrimSpace "SELECT 1;"),
        Call.writeLastSQL "SELECT 1;"] = _
      rfl
    have e2 := star_eq s1 _ hf1 hd1
    have hf2 : (star s1).lastSqlFile = Except.ok "SELECT 1;" := by
      rw [e2]; exact hf1
    have hd2 : (star s1).starDBError = none := by
      rw [e2]; exact hd1
    have hl3 : (unstar (star s1)).starList = [] := by
      rw [hstar _ _ hf1 hd1, hl1]; rfl
    have hd3 : (unstar (star s1)).starDBError = none := by
      rw [unstar_eq _ _ hf2 hd2]; exact hd2
    refine ⟨s1, star s1, unstar (star s1), hm, hc1, ?_, ?_, ?_, hl3, ?_⟩
    · exact (mainIteration_keyword E "star" _).2.2.2.1 (by decide)
    · rw [e2, hl1]; rfl
    · exact (mainIteration_keyword E "unstar" _).2.2.1 (by decide)
    · rw [(mainIteration_keyword E "ls" _).2.1 (by decide), ls_eq _ hd3, hl3]
      simp [orderById, Println, Print, hl3]

/-- Witness of C8: the buffer `SELECT 1; ` of a fresh session. -/
theorem star_then_unstar_witness :
    (HasSuffix (TrimSpace "SELECT 1; ") ";" = true ∧
      ({ freshState with sqlBuffer := "SELECT 1; " } : State Unit).lastSqlWriteError = none) ∧
    (executeIfTerminated sampleDriver { freshState with sqlBuffer := "SELECT 1; " }).lastSqlFile
      = Except.ok (TrimSpace "SELECT 1; ") :=
  ⟨⟨by decide, rfl⟩,
    (star_then_unstar sampleDriver { freshState with sqlBuffer := "SELECT 1; " }
      (by decide) rfl).1⟩

/-- The rule of `ExecuteQuery` has as many dashes as the header has bytes. -/
theorem rule_length_is_byte_length (columns : List String) :
    (Repeat "-" (len (Join columns " | "))).length = (Join columns " | ").utf8ByteSize := by
  show (Repeat "-" (len (Join columns " | "))).data.length = _
  rw [repeat_dash_data, List.length_replicate]
  rfl

/-- C7 on the code: for the single column name `é` the header printed by
`ExecuteQuery` has one character, and the rule below it has two dashes, the
number of bytes of the header. -/
theorem rule_counts_bytes_not_characters :
    (ExecuteQuery sampleDriver freshState "SELECT 1 AS é;").1.stdout =
      ["é\n", "--\n", "1\n"] ∧
    (Join ["é"] " | ").length = 1 ∧
    (Repeat "-" (len (Join ["é"] " | "))).length = 2 := by
  refine ⟨rfl, by decide, by decide⟩

/-- C10 on the code: started with `-db /data/work.db` while the file of the
default path holds `/data/old.db`, the program reads the default path and
opens the working database at `/data/old.db`; the value of the flag is read
before the command line is parsed and is never used. -/
theorem db_flag_is_read_before_parsing :
    sampleEnv.args = [("db", "/data/work.db")] ∧
    startup sampleEnv =
      Startup.ready "/data/old.db" "./DBTerminal/dbterminal.db"
        [StartCall.readDefaultPath, StartCall.NewFlexDBTerminal "/data/old.db",
          StartCall.NewFlexDBTerminal "./DBTerminal/dbterminal.db"]
        ["Connect to database: /data/old.db\n",
          "In interactive mode now (Type \x27exit\x27 to leave)\n"]
        ["SELECT 1;", "exit"] := by
  refine ⟨rfl, by decide⟩

end FlexDB
